import Mathlib

/-!
Verification of the `scripts/data_processor.py` ETL utility (class
`AcreDataProcessor`).  The Python code is shallowly embedded: a pandas
dataframe becomes a list of named, dtype-resolved columns; pandas floats are
modelled as rationals (`ℚ`), `datetime64[ns]` cells as integer nanoseconds
since the Unix epoch, and missing values (`NaN`/`NaT`/`None`) as `Option.none`.
Every definition mirrors the corresponding Python function; modelling choices
that abstract library behaviour are stated in the doc comment of the
definition that makes them.
-/

namespace DataProcessor

/-! ### String helpers

Python's substring test `pat in s` and related primitives. -/

/-- Whether `pat` occurs at the very start of `s` (on character lists). -/
def startsWithL : List Char → List Char → Bool
  | [], _ => true
  | _ :: _, [] => false
  | a :: as, b :: bs => a == b && startsWithL as bs

/-- Whether `pat` occurs somewhere inside `s` (on character lists). -/
def hasSubstrL (pat : List Char) : List Char → Bool
  | [] => pat.isEmpty
  | c :: cs => startsWithL pat (c :: cs) || hasSubstrL pat cs

/-- Python's `pat in s` substring containment on strings. -/
def strContains (s pat : String) : Bool :=
  hasSubstrL pat.toList s.toList

/-- Python's `s.lower()` (character-wise lowercasing). -/
def strLower (s : String) : String :=
  String.mk (s.toList.map Char.toLower)

/-- Python's `s.strip()`: drop leading and trailing whitespace. -/
def strTrim (s : String) : String :=
  String.mk
    (((s.toList.dropWhile Char.isWhitespace).reverse.dropWhile
        Char.isWhitespace).reverse)

/-- Split a character list on a separator character; Python's
`s.split(sep)` for a one-character separator. -/
def splitOnChar (sep : Char) : List Char → List (List Char)
  | [] => [[]]
  | c :: cs =>
    if c == sep then [] :: splitOnChar sep cs
    else
      match splitOnChar sep cs with
      | [] => [[c]]
      | g :: gs => (c :: g) :: gs

/-- All characters are ASCII digits and the field is non-empty. -/
def allDigits (l : List Char) : Bool :=
  !l.isEmpty && l.all Char.isDigit

/-- Numeric value of an ASCII digit field (Python `int(s)` on the match). -/
def digitsVal (l : List Char) : Nat :=
  l.foldl (fun a c => a * 10 + (c.toNat - 48)) 0

/-! ### `datetime.strptime` for the fixed date formats

`_is_date_string` tries the six formats
`['%Y-%m-%d', '%d/%m/%Y', '%m/%d/%Y', '%Y/%m/%d', '%d-%m-%Y', '%m-%d-%Y']`.
Each format is three digit fields joined by a single separator character.
CPython's `strptime` matches `%Y` as exactly four digits, `%m` as one or two
digits valued 1..12, `%d` as one or two digits valued 1..31, requires the
whole string to be consumed, and then constructs `datetime(y, m, d)`, which
additionally requires `y ≥ 1` and `d` at most the length of the month.  For
digit-only fields separated by non-digit literals this is equivalent to
splitting on the separator and checking each field, which is how it is
embedded here. -/

/-- A field of a date format string. -/
inductive DField
  | year
  | month
  | day
deriving DecidableEq

/-- One of the six fixed `strptime` format strings: a separator and the
order of its three fields. -/
structure DateFmt where
  sep : Char
  f1 : DField
  f2 : DField
  f3 : DField
deriving DecidableEq

/-- The `strptime` regex fragment for a single field. -/
def fieldOk : DField → List Char → Bool
  | .year, s => s.length == 4 && allDigits s
  | .month, s =>
      (s.length == 1 || s.length == 2) && allDigits s &&
      decide (1 ≤ digitsVal s) && decide (digitsVal s ≤ 12)
  | .day, s =>
      (s.length == 1 || s.length == 2) && allDigits s &&
      decide (1 ≤ digitsVal s) && decide (digitsVal s ≤ 31)

/-- Gregorian leap year, as used by `datetime`. -/
def isLeap (y : Nat) : Bool :=
  y % 4 == 0 && (y % 100 != 0 || y % 400 == 0)

/-- Number of days in a month, as used by `datetime`. -/
def daysInMonth (y m : Nat) : Nat :=
  if m == 2 then (if isLeap y then 29 else 28)
  else if m == 4 || m == 6 || m == 9 || m == 11 then 30
  else 31

/-- Validity check performed by the `datetime(y, m, d)` constructor. -/
def validDate (y m d : Nat) : Bool :=
  decide (1 ≤ y) && decide (1 ≤ m) && decide (m ≤ 12) &&
  decide (1 ≤ d) && decide (d ≤ daysInMonth y m)

/-- Select the text of the field tagged `t` among the matched fields. -/
def getDField (t : DField) : List (DField × List Char) → List Char
  | [] => []
  | (f, s) :: rest => if f == t then s else getDField t rest

/-- Embedding of `datetime.strptime(s, fmt)` for one of the fixed formats, returning the
parsed `(year, month, day)` on success. -/
def strptimeParts (fmt : DateFmt) (s : String) : Option (Nat × Nat × Nat) :=
  match splitOnChar fmt.sep s.toList with
  | [a, b, c] =>
    let ps := [(fmt.f1, a), (fmt.f2, b), (fmt.f3, c)]
    if ps.all (fun p => fieldOk p.1 p.2) then
      let y := digitsVal (getDField .year ps)
      let m := digitsVal (getDField .month ps)
      let d := digitsVal (getDField .day ps)
      if validDate y m d then some (y, m, d) else none
    else none
  | _ => none

/-- The ISO format `'%Y-%m-%d'`, first in the source's list. -/
def isoFmt : DateFmt := ⟨'-', .year, .month, .day⟩

/-- The list `date_formats` of `_is_date_string`, in source order. -/
def date_formats : List DateFmt :=
  [isoFmt,
   ⟨'/', .day, .month, .year⟩,
   ⟨'/', .month, .day, .year⟩,
   ⟨'/', .year, .month, .day⟩,
   ⟨'-', .day, .month, .year⟩,
   ⟨'-', .month, .day, .year⟩]

/-- The `for fmt in date_formats: try ... return True / except: continue`
loop of `_is_date_string`, also returning the parts for reuse by the
`pd.to_datetime` model. -/
def tryFormats : List DateFmt → String → Option (Nat × Nat × Nat)
  | [], _ => none
  | f :: fs, v =>
    match strptimeParts f v with
    | some p => some p
    | none => tryFormats fs v

/-- Embedding of `_is_date_string(value)`: some fixed format parses the string. -/
def is_date_string (value : String) : Bool :=
  (tryFormats date_formats value).isSome

/-! ### Columns and dataframes -/

/-- A pandas column: resolved dtype together with its cells.  Missing values
(`NaN`, `NaT`, `None`) are `none`; floats are modelled as rationals and
`datetime64[ns]` cells as integer nanoseconds since the epoch.  Object
columns hold strings (the code only ever inspects them through `str(x)`). -/
inductive Col
  | ints (data : List (Option Int))
  | floats (data : List (Option ℚ))
  | datetimes (data : List (Option Int))
  | bools (data : List (Option Bool))
  | objs (data : List (Option String))
deriving DecidableEq

/-- Embedding of `str(df[col].dtype)` for each resolved dtype. -/
def dtypeStr : Col → String
  | .ints _ => "int64"
  | .floats _ => "float64"
  | .datetimes _ => "datetime64[ns]"
  | .bools _ => "bool"
  | .objs _ => "object"

/-- Embedding of `df[col].dropna()` followed by `str(x)` per cell, as used by the date
sampling branch of `_analyze_schema`.  That branch only runs for object
dtype; other dtypes are matched earlier, so their value here is unused. -/
def Col.strSample : Col → List String
  | .objs d => d.filterMap id
  | _ => []

/-- A dataframe: named columns in order. -/
structure DataFrame where
  cols : List (String × Col)
deriving DecidableEq

/-- Number of cells in a column. -/
def colLen : Col → Nat
  | .ints d => d.length
  | .floats d => d.length
  | .datetimes d => d.length
  | .bools d => d.length
  | .objs d => d.length

/-- Embedding of `len(df)`: the number of rows. -/
def nRows (df : DataFrame) : Nat :=
  (df.cols.map (fun p => colLen p.2)).foldr max 0

/-! ### `_analyze_schema` -/

/-- The per-column body of `_analyze_schema`: dtype-string tests first, then
the sampled date-string test on up to 10 non-null values. -/
def analyzeCol (c : Col) : String :=
  let dtype := dtypeStr c
  if strContains dtype "int" then "integer"
  else if strContains dtype "float" then "number"
  else if strContains dtype "datetime" then "datetime"
  else if strContains dtype "bool" then "boolean"
  else
    let sample := c.strSample.take 10
    if sample.all (fun x => is_date_string x) then "date" else "string"

/-- Embedding of `_analyze_schema(df)`: the per-column type mapping, in column order. -/
def analyze_schema (df : DataFrame) : List (String × String) :=
  df.cols.map (fun p => (p.1, analyzeCol p.2))

/-! ### `_clean_data` -/

/-- Whether the cell at row `i` is missing (out-of-range counts as missing). -/
def colNullAt : Col → Nat → Bool
  | .ints d, i => (d.getD i none).isNone
  | .floats d, i => (d.getD i none).isNone
  | .datetimes d, i => (d.getD i none).isNone
  | .bools d, i => (d.getD i none).isNone
  | .objs d, i => (d.getD i none).isNone

/-- Keep the entries of `l` whose index satisfies `keep`. -/
def filterIdx {α : Type} (keep : Nat → Bool) (l : List α) : List α :=
  (l.enum.filter (fun p => keep p.1)).map Prod.snd

/-- Restrict a column to the rows selected by `keep`. -/
def colFilterRows (keep : Nat → Bool) : Col → Col
  | .ints d => .ints (filterIdx keep d)
  | .floats d => .floats (filterIdx keep d)
  | .datetimes d => .datetimes (filterIdx keep d)
  | .bools d => .bools (filterIdx keep d)
  | .objs d => .objs (filterIdx keep d)

/-- Embedding of `df.dropna(how='all')`: drop the rows in which every column is null. -/
def dropAllNullRows (df : DataFrame) : DataFrame :=
  ⟨df.cols.map (fun p =>
    (p.1, colFilterRows (fun i => df.cols.any (fun q => !(colNullAt q.2 i))) p.2))⟩

/-- The whitespace-stripping pass over object (string) columns:
`x.strip() if isinstance(x, str) else x`. -/
def stripCol : Col → Col
  | .objs d => .objs (d.map (Option.map strTrim))
  | c => c

/-- Strip whitespace from every object column. -/
def stripCols (df : DataFrame) : DataFrame :=
  ⟨df.cols.map (fun p => (p.1, stripCol p.2))⟩

/-- The `date_patterns` list of `_clean_data`. -/
def date_patterns : List String :=
  ["date", "time", "created", "updated", "modified"]

/-- Nanoseconds per day (`datetime64[ns]` resolution). -/
def nsPerDay : Int := 86400000000000

/-- Days from the civil date `(y, m, d)` to 1970-01-01 (Gregorian calendar,
the standard era-based computation with truncating division on non-negative
operands). -/
def daysFromCivil (y m d : Int) : Int :=
  let y2 := if m ≤ 2 then y - 1 else y
  let era := (if 0 ≤ y2 then y2 else y2 - 399) / 400
  let yoe := y2 - era * 400
  let mp := if 2 < m then m - 3 else m + 9
  let doy := (153 * mp + 2) / 5 + d - 1
  let doe := yoe * 365 + yoe / 4 - yoe / 100 + doy
  era * 146097 + doe - 719468

/-- Model of pandas' string-to-datetime parsing inside
`pd.to_datetime(..., errors='coerce')`, restricted to the repository's date
formats; a cell that does not parse becomes `NaT` (`none`).  No claim
depends on exactly which strings pandas' flexible parser accepts. -/
def parseDatetimeStr (s : String) : Option Int :=
  (tryFormats date_formats s).map
    (fun p => daysFromCivil p.1 p.2.1 p.2.2 * nsPerDay)

/-- Model of `pd.to_datetime(series, errors='coerce')`:
integer and float cells are read as nanoseconds since the epoch, datetime
cells pass through, object cells are parsed or coerced to `NaT`, and a
boolean-dtype series raises `TypeError` (pandas: "dtype bool cannot be
converted to datetime64[ns]") even under `errors='coerce'`, modelled as
`none`. -/
def toDatetimeCoerce : Col → Option Col
  | .ints d => some (.datetimes d)
  | .floats d => some (.datetimes (d.map (Option.map Rat.floor)))
  | .datetimes d => some (.datetimes d)
  | .bools _ => none
  | .objs d => some (.datetimes (d.map (fun o => o.bind parseDatetimeStr)))

/-- The date-conversion loop of `_clean_data`: columns whose lowercased name
contains one of `date_patterns` are converted with
`pd.to_datetime(..., errors='coerce')` inside `try: ... except: pass`. -/
def convertDateCols (df : DataFrame) : DataFrame :=
  ⟨df.cols.map (fun p =>
    if date_patterns.any (fun pat => strContains (strLower p.1) pat) then
      match toDatetimeCoerce p.2 with
      | some c2 => (p.1, c2)
      | none => p
    else p)⟩

/-- Embedding of `_clean_data(df)`: drop all-null rows, strip string cells, convert
date-named columns. -/
def clean_data (df : DataFrame) : DataFrame :=
  convertDateCols (stripCols (dropAllNullRows df))

/-! ### `_generate_insights` -/

/-- Whether `select_dtypes(include=[np.number])` selects the column
(integer and float dtypes; not bool, not datetime). -/
def isNumeric : Col → Bool
  | .ints _ => true
  | .floats _ => true
  | _ => false

/-- Whether `select_dtypes(include=['datetime64'])` selects the column. -/
def isDatetimeCol : Col → Bool
  | .datetimes _ => true
  | _ => false

/-- The non-null values of a numeric column, as rationals. -/
def nonNullQ : Col → List ℚ
  | .ints d => d.filterMap (fun o => o.map (fun n : Int => (n : ℚ)))
  | .floats d => d.filterMap id
  | _ => []

/-- The non-null values of a datetime column (nanoseconds since epoch). -/
def colDatetimeVals : Col → List Int
  | .datetimes d => d.filterMap id
  | _ => []

/-- Smallest element of a list, `dflt` on the empty list (only ever used on
non-empty lists by the theorems). -/
def listMinD {α : Type} [LinearOrder α] (dflt : α) : List α → α
  | [] => dflt
  | v :: r => r.foldl min v

/-- Largest element of a list, `dflt` on the empty list. -/
def listMaxD {α : Type} [LinearOrder α] (dflt : α) : List α → α
  | [] => dflt
  | v :: r => r.foldl max v

/-- Embedding of `series.mean()`: arithmetic mean of the non-null values. -/
def listMean (vs : List ℚ) : ℚ := vs.sum / vs.length

/-- The values in non-decreasing order, as used by `series.median()`. -/
def sortedQ (vs : List ℚ) : List ℚ :=
  vs.insertionSort (fun a b => a ≤ b)

/-- Embedding of `series.median()`: middle element of the sorted values, or the average
of the two middle elements for an even count. -/
def listMedian (vs : List ℚ) : ℚ :=
  if vs.length == 0 then 0
  else if vs.length % 2 == 1 then (sortedQ vs).getD (vs.length / 2) 0
  else
    ((sortedQ vs).getD (vs.length / 2 - 1) 0 +
     (sortedQ vs).getD (vs.length / 2) 0) / 2

/-- The square of `series.std()` (sample variance, pandas default
`ddof=1`).  The variance is stored because the standard deviation itself is
an irrational square root; no claim concerns its value.  For fewer than two
values pandas yields `NaN`, modelled as `0`. -/
def listVariance (vs : List ℚ) : ℚ :=
  if vs.length ≤ 1 then 0
  else (vs.map (fun x => (x - listMean vs) ^ 2)).sum / ((vs.length : ℚ) - 1)

/-- The per-column entry of `insights['summary_stats']`.  `variance` is the
square of the `std` entry of the source (see `listVariance`). -/
structure ColStats where
  mean : ℚ
  median : ℚ
  variance : ℚ
  min : ℚ
  max : ℚ
deriving DecidableEq

/-- The summary statistics of one numeric column. -/
def colStats (c : Col) : ColStats :=
  let vs := nonNullQ c
  ⟨listMean vs, listMedian vs, listVariance vs, listMinD 0 vs, listMaxD 0 vs⟩

/-- The `insights['date_range']` entry.  The source's `'end'` key is named
`stop` because `end` is a Lean keyword; `days` is
`(max - min).days`, the span floored to whole days. -/
structure DateRangeInfo where
  start : Int
  stop : Int
  days : Int
deriving DecidableEq

/-- An entry of `insights['patterns']`. -/
structure PatternEntry where
  type : String
  total : ℚ
  average : ℚ
deriving DecidableEq

/-- The result of `_generate_insights`.  `date_range` is `none` when the key
is absent from the returned dictionary. -/
structure Insights where
  summary_stats : List (String × ColStats)
  patterns : List PatternEntry
  recommendations : List String
  date_range : Option DateRangeInfo
deriving DecidableEq

/-- Embedding of `float(df[col].sum())` as used by the revenue pattern.  Pandas sums
skip nulls; an empty sum is `0.0`; a boolean sum counts the `True` cells.
On datetime and object columns the source raises (`sum` is undefined or
`float(...)` fails); the theorems only use this on numeric columns, where
the value is `0` here. -/
def colSumQ : Col → ℚ
  | .ints d => (nonNullQ (.ints d)).sum
  | .floats d => (nonNullQ (.floats d)).sum
  | .bools d => ((d.filterMap id).filter (fun b => b)).length
  | _ => 0

/-- The number of non-null cells of a column. -/
def colCount : Col → Nat
  | .ints d => (d.filterMap id).length
  | .floats d => (d.filterMap id).length
  | .datetimes d => (d.filterMap id).length
  | .bools d => (d.filterMap id).length
  | .objs d => (d.filterMap id).length

/-- Embedding of `float(df[col].mean())` as used by the revenue pattern. -/
def colMeanQ (c : Col) : ℚ := colSumQ c / colCount c

/-- Embedding of `_generate_insights(df)`.  Note the source's two revenue lines: the
guard `'revenue' in df.columns.str.lower()` is membership in an `Index`,
i.e. an exact (case-insensitive) name match, while the selection
`[col for col in df.columns if 'revenue' in col.lower()][0]` is a substring
match picking the first such column.  A datetime column holding only `NaT`
would make the source emit `NaT` placeholders in `date_range`; that
degenerate case is modelled as the entry being absent, and the theorems
about `date_range` require a non-null value. -/
def generate_insights (df : DataFrame) : Insights :=
  let numeric := df.cols.filter (fun p => isNumeric p.2)
  let summary := numeric.map (fun p => (p.1, colStats p.2))
  let dateCols := df.cols.filter (fun p => isDatetimeCol p.2)
  let dr : Option DateRangeInfo :=
    match dateCols with
    | [] => none
    | p :: _ =>
      match colDatetimeVals p.2 with
      | [] => none
      | v :: r =>
        some ⟨listMinD 0 (v :: r), listMaxD 0 (v :: r),
              (listMaxD 0 (v :: r) - listMinD 0 (v :: r)) / nsPerDay⟩
  let pats : List PatternEntry :=
    if (df.cols.map (fun p => strLower p.1)).contains "revenue" then
      match df.cols.find? (fun p => strContains (strLower p.1) "revenue") with
      | some p => [⟨"revenue_trend", colSumQ p.2, colMeanQ p.2⟩]
      | none => []
    else []
  ⟨summary, pats, [], dr⟩

/-! ### `_upload_to_s3` and `process_file` -/

/-- A UTC wall-clock instant as used by `datetime.utcnow().strftime(...)`. -/
structure Timestamp where
  year : Nat
  month : Nat
  day : Nat
  hour : Nat
  minute : Nat
  second : Nat
deriving DecidableEq

/-- Zero-pad a number to `width` digits, as `strftime` does. -/
def padNum (width n : Nat) : String :=
  let s := toString n
  String.mk (List.replicate (width - s.length) '0') ++ s

/-- Embedding of `datetime.utcnow().strftime('%Y%m%d_%H%M%S')`. -/
def strftimeKey (t : Timestamp) : String :=
  padNum 4 t.year ++ padNum 2 t.month ++ padNum 2 t.day ++ "_" ++
  padNum 2 t.hour ++ padNum 2 t.minute ++ padNum 2 t.second

/-- Embedding of `os.path.basename(file_path)` on POSIX: the part after the last `/`. -/
def basename (p : String) : String :=
  String.mk ((splitOnChar '/' p.toList).getLastD [])

/-- The object store: the keys uploaded so far, in order. -/
structure S3State where
  objects : List String
deriving DecidableEq

/-- Embedding of `_upload_to_s3(file_path, user_id)`: builds the key
`business-<user_id>/<timestamp>_<filename>`, performs the upload (modelled
as appending the key to the store), and returns the key. -/
def upload_to_s3 (filePath : String) (userId : Int) (now : Timestamp)
    (s3 : S3State) : String × S3State :=
  let timestamp := strftimeKey now
  let filename := basename filePath
  let s3_key := "business-" ++ toString userId ++ "/" ++ timestamp ++ "_" ++ filename
  (s3_key, ⟨s3.objects ++ [s3_key]⟩)

/-- The exception raised by `process_file` on an unsupported file type. -/
inductive PyErr
  | valueError (msg : String)
deriving DecidableEq

/-- The dictionary returned by `process_file`.  `rows` stands for
`df.to_dict('records')` (the cleaned dataframe itself here) and
`processed_at` is the timestamp passed in. -/
structure ProcessedData where
  rows : DataFrame
  schema : List (String × String)
  insights : Insights
  row_count : Nat
  columns : List String
  s3_key : String
  processed_at : Timestamp
deriving DecidableEq

/-- The body of `process_file` after a successful read: clean, analyze,
generate insights, upload, and assemble the returned dictionary. -/
def processBody (filePath : String) (userId : Int) (parsed : DataFrame)
    (now : Timestamp) (s3 : S3State) : Except PyErr ProcessedData × S3State :=
  let df := clean_data parsed
  let schema := analyze_schema df
  let insights := generate_insights df
  let ks := upload_to_s3 filePath userId now s3
  (.ok ⟨df, schema, insights, nRows df, df.cols.map Prod.fst, ks.1, now⟩, ks.2)

/-- Embedding of `process_file(file_path, file_type, user_id)`.  Reading the file with
`pd.read_csv` / `pd.read_excel` / `pd.read_json` is modelled by the already
parsed dataframe `parsed`, which the reader would return for the supported
types; the dispatch on `file_type.lower()` is the source's.  The object
store is threaded explicitly so that theorems can speak about whether the
upload happened. -/
def process_file (filePath : String) (fileType : String) (userId : Int)
    (parsed : DataFrame) (now : Timestamp) (s3 : S3State) :
    Except PyErr ProcessedData × S3State :=
  if strLower fileType == "csv" then
    processBody filePath userId parsed now s3
  else if strLower fileType == "xlsx" || strLower fileType == "xls" then
    processBody filePath userId parsed now s3
  else if strLower fileType == "json" then
    processBody filePath userId parsed now s3
  else
    (.error (.valueError ("Unsupported file type: " ++ fileType)), s3)

/-! ### The schema-inference rule as the specification words it

The spec (section 4) states the typing heuristic in its own words; this
second definition follows that wording and is compared with the embedded
source in the refinement theorem for claim C2. -/

/-- Per-column type inference as worded by the spec: map the resolved
storage type first; otherwise sample up to 10 non-null values, test each
against the fixed ordered format list, and classify `date` exactly when
every sampled value parses under at least one format. -/
def specInferType (c : Col) : String :=
  match c with
  | .ints _ => "integer"
  | .floats _ => "number"
  | .datetimes _ => "datetime"
  | .bools _ => "boolean"
  | .objs d =>
    let sample := (d.filterMap id).take 10
    if sample.all (fun v => date_formats.any (fun f => (strptimeParts f v).isSome))
    then "date" else "string"

/-- The whole schema mapping as worded by the spec. -/
def specSchema (df : DataFrame) : List (String × String) :=
  df.cols.map (fun p => (p.1, specInferType p.2))

/-- Whether the column has boolean dtype (the one dtype
`pd.to_datetime` refuses to convert). -/
def Col.isBools : Col → Bool
  | .bools _ => true
  | _ => false

/-- The first column selected by `select_dtypes(include=['datetime64'])`,
i.e. `date_cols[0]` of `_generate_insights`. -/
def firstDatetimeCol (df : DataFrame) : Option (String × Col) :=
  df.cols.find? (fun p => isDatetimeCol p.2)

/-! ### Concrete inputs used to instantiate the theorems -/

/-- A numeric column named exactly `Revenue`. -/
def colC1w : Col := Col.ints [some 2, some 4]

/-- One-column dataframe whose lowercased column name is exactly
`revenue`. -/
def dfC1w : DataFrame := ⟨[("Revenue", colC1w)]⟩

/-- One-column dataframe whose column name contains, but does not equal,
`revenue`. -/
def dfC1cex : DataFrame := ⟨[("total_revenue", Col.ints [some 5])]⟩

/-- A small integer column. -/
def colC4w : Col := Col.ints [some 2, some 6]

/-- One-column numeric dataframe. -/
def dfC4w : DataFrame := ⟨[("amount", colC4w)]⟩

/-- The summary-stats entry produced for `dfC4w`. -/
def pC4w : String × ColStats := ("amount", colStats colC4w)

/-- A concrete wall-clock instant. -/
def tsW : Timestamp := ⟨2026, 1, 2, 3, 4, 5⟩

/-- An object store that already holds one key. -/
def s3W : S3State := ⟨["existing-key"]⟩

/-- A datetime column spanning a little over two days. -/
def colC7w : Col := Col.datetimes [some (2 * 86400000000000 + 5), some 0]

/-- One-column datetime dataframe. -/
def dfC7w : DataFrame := ⟨[("when", colC7w)]⟩

/-- A dataframe with no datetime column. -/
def dfC7n : DataFrame := ⟨[("a", Col.ints [some 1])]⟩

/-- A boolean column whose name contains the pattern `time`. -/
def dfC9cex : DataFrame := ⟨[("login_time", Col.bools [some true])]⟩

/-- A string column whose name contains the pattern `created`. -/
def dfC9w : DataFrame := ⟨[("created_at", Col.objs [some "2024-01-15", some "nope"])]⟩

/-- A one-column integer dataframe. -/
def dfC10w : DataFrame := ⟨[("a", Col.ints [some 1])]⟩

/-! ## Helper lemmas -/

theorem analyzeCol_ints (d : List (Option Int)) :
    analyzeCol (Col.ints d) = "integer" := rfl

theorem analyzeCol_floats (d : List (Option ℚ)) :
    analyzeCol (Col.floats d) = "number" := rfl

theorem analyzeCol_datetimes (d : List (Option Int)) :
    analyzeCol (Col.datetimes d) = "datetime" := rfl

theorem analyzeCol_bools (d : List (Option Bool)) :
    analyzeCol (Col.bools d) = "boolean" := rfl

theorem analyzeCol_objs (d : List (Option String)) :
    analyzeCol (Col.objs d) =
      if ((d.filterMap id).take 10).all (fun x => is_date_string x)
      then "date" else "string" := rfl

theorem tryFormats_isSome (v : String) :
    ∀ fs : List DateFmt,
      (tryFormats fs v).isSome = fs.any (fun f => (strptimeParts f v).isSome)
  | [] => rfl
  | f :: fs => by
    cases h : strptimeParts f v with
    | some p => simp [tryFormats, h]
    | none => simp [tryFormats, h, tryFormats_isSome v fs]

theorem is_date_string_eq_any (v : String) :
    is_date_string v =
      date_formats.any (fun f => (strptimeParts f v).isSome) :=
  tryFormats_isSome v date_formats

theorem is_date_string_of_iso {v : String}
    (h : (strptimeParts isoFmt v).isSome = true) : is_date_string v = true := by
  cases hh : strptimeParts isoFmt v with
  | none => rw [hh] at h; simp at h
  | some p => simp [is_date_string, date_formats, tryFormats, hh]

/-! ## C2: the schema-inference rule, code against spec wording -/

theorem analyzeCol_eq_spec (c : Col) : analyzeCol c = specInferType c := by
  cases c with
  | ints d => rfl
  | floats d => rfl
  | datetimes d => rfl
  | bools d => rfl
  | objs d =>
    rw [analyzeCol_objs]
    simp only [specInferType, is_date_string_eq_any]

/-- C2: for every column, schema inference maps the resolved storage type
first (integer/float/datetime/boolean dtypes to
`integer`/`number`/`datetime`/`boolean`); otherwise it samples up to 10
non-null values and tests each against the fixed ordered format list, and
classifies `date` exactly when every sampled value parses under at least
one format, otherwise `string`.  Stated as: the embedded source equals the
rule as the spec words it. -/
theorem c2_schema_inference_matches_spec (df : DataFrame) :
    analyze_schema df = specSchema df := by
  simp only [analyze_schema, specSchema, analyzeCol_eq_spec]

/-- C3: an integer-dtype column is typed `integer`, a float-dtype column is
typed `number`, and a column of strings that all parse under the ISO
`'%Y-%m-%d'` format is typed `date`. -/
theorem c3_basic_column_types :
    (∀ d : List (Option Int), analyzeCol (Col.ints d) = "integer") ∧
    (∀ d : List (Option ℚ), analyzeCol (Col.floats d) = "number") ∧
    (∀ d : List (Option String),
      (∀ v ∈ d.filterMap id, (strptimeParts isoFmt v).isSome = true) →
      analyzeCol (Col.objs d) = "date") := by
  refine ⟨analyzeCol_ints, analyzeCol_floats, fun d h => ?_⟩
  rw [analyzeCol_objs]
  have hall : ((d.filterMap id).take 10).all (fun x => is_date_string x) = true :=
    List.all_eq_true.mpr fun x hx =>
      is_date_string_of_iso (h x (List.take_subset _ _ hx))
  simp [hall]

theorem c3_witness :
    analyzeCol (Col.ints [some 7]) = "integer" ∧
    analyzeCol (Col.floats [some (3 / 2 : ℚ)]) = "number" ∧
    analyzeCol (Col.objs [some "2024-01-15", some "2023-12-31"]) = "date" :=
  ⟨c3_basic_column_types.1 [some 7],
   c3_basic_column_types.2.1 [some (3 / 2 : ℚ)],
   c3_basic_column_types.2.2 [some "2024-01-15", some "2023-12-31"] (by decide)⟩

/-- C8: an object column with no non-null values is classified `date`,
because the all-sampled-values-parse test is vacuously true on the empty
sample. -/
theorem c8_all_null_object_column_is_date (d : List (Option String))
    (h : d.filterMap id = []) : analyzeCol (Col.objs d) = "date" := by
  rw [analyzeCol_objs, h]
  rfl

theorem c8_witness :
    analyzeCol (Col.objs [none, none]) = "date" :=
  c8_all_null_object_column_is_date [none, none] rfl

/-! ## C10: every column gets exactly one of the six labels -/

theorem analyzeCol_mem_labels (c : Col) :
    analyzeCol c ∈
      (["integer", "number", "datetime", "boolean", "date", "string"] :
        List String) := by
  cases c with
  | ints d => rw [analyzeCol_ints]; simp
  | floats d => rw [analyzeCol_floats]; simp
  | datetimes d => rw [analyzeCol_datetimes]; simp
  | bools d => rw [analyzeCol_bools]; simp
  | objs d => rw [analyzeCol_objs]; split <;> simp

/-- C10: `_analyze_schema` returns one entry per dataframe column, in
order, and every inferred type is one of the six labels. -/
theorem c10_schema_keys_and_labels (df : DataFrame) :
    (analyze_schema df).map Prod.fst = df.cols.map Prod.fst ∧
    ∀ p ∈ analyze_schema df,
      p.2 ∈
        (["integer", "number", "datetime", "boolean", "date", "string"] :
          List String) := by
  constructor
  · rw [analyze_schema, List.map_map]
    exact List.map_congr_left fun p _ => rfl
  · intro p hp
    obtain ⟨q, _, rfl⟩ := List.mem_map.mp hp
    exact analyzeCol_mem_labels q.2

theorem c10_witness :
    (analyze_schema dfC10w).map Prod.fst = dfC10w.cols.map Prod.fst ∧
    (("a", "integer") : String × String).2 ∈
      (["integer", "number", "datetime", "boolean", "date", "string"] :
        List String) :=
  ⟨(c10_schema_keys_and_labels dfC10w).1,
   (c10_schema_keys_and_labels dfC10w).2 ("a", "integer") (by decide)⟩

/-! ## Order lemmas for fold-based minima and maxima -/

theorem foldl_min_le_init {α : Type} [LinearOrder α] (r : List α) (a : α) :
    r.foldl min a ≤ a := by
  induction r generalizing a with
  | nil => exact le_refl a
  | cons b r ih => exact le_trans (ih (min a b)) (min_le_left a b)

theorem foldl_min_le_mem {α : Type} [LinearOrder α] {r : List α} {x : α}
    (a : α) (hx : x ∈ r) : r.foldl min a ≤ x := by
  induction r generalizing a with
  | nil => cases hx
  | cons b r ih =>
    cases hx with
    | head =>
      exact le_trans (foldl_min_le_init r (min a x)) (min_le_right a x)
    | tail _ hm => exact ih (min a b) hm

theorem foldl_min_mem {α : Type} [LinearOrder α] (r : List α) (a : α) :
    r.foldl min a = a ∨ r.foldl min a ∈ r := by
  induction r generalizing a with
  | nil => exact Or.inl rfl
  | cons b r ih =>
    rcases ih (min a b) with h | h
    · rcases min_cases a b with ⟨hm, _⟩ | ⟨hm, _⟩
      · exact Or.inl (by rw [List.foldl_cons, h, hm])
      · exact Or.inr (by rw [List.foldl_cons, h, hm]; exact List.mem_cons_self b r)
    · exact Or.inr (List.mem_cons_of_mem b h)

theorem foldl_max_init_le {α : Type} [LinearOrder α] (r : List α) (a : α) :
    a ≤ r.foldl max a := by
  induction r generalizing a with
  | nil => exact le_refl a
  | cons b r ih => exact le_trans (le_max_left a b) (ih (max a b))

theorem foldl_max_mem_le {α : Type} [LinearOrder α] {r : List α} {x : α}
    (a : α) (hx : x ∈ r) : x ≤ r.foldl max a := by
  induction r generalizing a with
  | nil => cases hx
  | cons b r ih =>
    cases hx with
    | head =>
      exact le_trans (le_max_right a x) (foldl_max_init_le r (max a x))
    | tail _ hm => exact ih (max a b) hm

theorem foldl_max_mem {α : Type} [LinearOrder α] (r : List α) (a : α) :
    r.foldl max a = a ∨ r.foldl max a ∈ r := by
  induction r generalizing a with
  | nil => exact Or.inl rfl
  | cons b r ih =>
    rcases ih (max a b) with h | h
    · rcases max_cases a b with ⟨hm, _⟩ | ⟨hm, _⟩
      · exact Or.inl (by rw [List.foldl_cons, h, hm])
      · exact Or.inr (by rw [List.foldl_cons, h, hm]; exact List.mem_cons_self b r)
    · exact Or.inr (List.mem_cons_of_mem b h)

theorem listMinD_le {α : Type} [LinearOrder α] (dflt : α) {vs : List α}
    {x : α} (hx : x ∈ vs) : listMinD dflt vs ≤ x := by
  cases vs with
  | nil => cases hx
  | cons v r =>
    cases hx with
    | head => exact foldl_min_le_init r x
    | tail _ hm => exact foldl_min_le_mem v hm

theorem listMinD_mem {α : Type} [LinearOrder α] (dflt : α) {vs : List α}
    (h : vs ≠ []) : listMinD dflt vs ∈ vs := by
  cases vs with
  | nil => exact absurd rfl h
  | cons v r =>
    rcases foldl_min_mem r v with hm | hm
    · rw [listMinD, hm]; exact List.mem_cons_self v r
    · exact List.mem_cons_of_mem v hm

theorem le_listMaxD {α : Type} [LinearOrder α] (dflt : α) {vs : List α}
    {x : α} (hx : x ∈ vs) : x ≤ listMaxD dflt vs := by
  cases vs with
  | nil => cases hx
  | cons v r =>
    cases hx with
    | head => exact foldl_max_init_le r x
    | tail _ hm => exact foldl_max_mem_le v hm

theorem listMaxD_mem {α : Type} [LinearOrder α] (dflt : α) {vs : List α}
    (h : vs ≠ []) : listMaxD dflt vs ∈ vs := by
  cases vs with
  | nil => exact absurd rfl h
  | cons v r =>
    rcases foldl_max_mem r v with hm | hm
    · rw [listMaxD, hm]; exact List.mem_cons_self v r
    · exact List.mem_cons_of_mem v hm

/-! ## Mean and median bounds -/

theorem listMean_bounds (vs : List ℚ) (h : vs ≠ []) :
    listMinD 0 vs ≤ listMean vs ∧ listMean vs ≤ listMaxD 0 vs := by
  have hn : 0 < (vs.length : ℚ) := by exact_mod_cast List.length_pos.mpr h
  have hlo := List.card_nsmul_le_sum vs (listMinD 0 vs)
    (fun x hx => listMinD_le 0 hx)
  have hhi := List.sum_le_card_nsmul vs (listMaxD 0 vs)
    (fun x hx => le_listMaxD 0 hx)
  rw [nsmul_eq_mul] at hlo hhi
  constructor
  · rw [listMean, le_div_iff₀ hn]; linarith
  · rw [listMean, div_le_iff₀ hn]; linarith

theorem sortedQ_mem {vs : List ℚ} {x : ℚ} (hx : x ∈ sortedQ vs) : x ∈ vs :=
  (List.perm_insertionSort _ vs).mem_iff.mp hx

theorem sortedQ_length (vs : List ℚ) : (sortedQ vs).length = vs.length :=
  (List.perm_insertionSort _ vs).length_eq

theorem listMedian_bounds (vs : List ℚ) (h : vs ≠ []) :
    listMinD 0 vs ≤ listMedian vs ∧ listMedian vs ≤ listMaxD 0 vs := by
  have hlen : 0 < vs.length := List.length_pos.mpr h
  have hmem : ∀ i, i < vs.length → (sortedQ vs).getD i 0 ∈ vs := by
    intro i hi
    have hi2 : i < (sortedQ vs).length := by rw [sortedQ_length]; exact hi
    rw [List.getD_eq_getElem _ 0 hi2]
    exact sortedQ_mem (List.getElem_mem hi2)
  have h2 : vs.length / 2 < vs.length := Nat.div_lt_self hlen one_lt_two
  have h1 : vs.length / 2 - 1 < vs.length := lt_of_le_of_lt (Nat.sub_le _ _) h2
  have hne : (vs.length == 0) = false := by
    simp [Nat.pos_iff_ne_zero.mp hlen]
  unfold listMedian
  rw [hne]
  simp only [Bool.false_eq_true, if_false]
  split
  · exact ⟨listMinD_le 0 (hmem _ h2), le_listMaxD 0 (hmem _ h2)⟩
  · have ha := hmem _ h1
    have hb := hmem _ h2
    have ha1 := listMinD_le 0 ha
    have hb1 := listMinD_le 0 hb
    have ha2 := le_listMaxD 0 ha
    have hb2 := le_listMaxD 0 hb
    constructor <;> [linarith; linarith]

/-! ## C4: summary statistics -/

theorem generate_insights_summary (df : DataFrame) :
    (generate_insights df).summary_stats =
      (df.cols.filter (fun p => isNumeric p.2)).map
        (fun p => (p.1, colStats p.2)) := rfl

theorem analyzeCol_of_numeric {c : Col} (h : isNumeric c = true) :
    analyzeCol c = "integer" ∨ analyzeCol c = "number" := by
  cases c with
  | ints d => exact Or.inl (analyzeCol_ints d)
  | floats d => exact Or.inr (analyzeCol_floats d)
  | datetimes d => simp [isNumeric] at h
  | bools d => simp [isNumeric] at h
  | objs d => simp [isNumeric] at h

theorem colStats_bounds {c : Col} (h : nonNullQ c ≠ []) :
    (colStats c).min ≤ (colStats c).mean ∧
    (colStats c).mean ≤ (colStats c).max ∧
    (colStats c).min ≤ (colStats c).median ∧
    (colStats c).median ≤ (colStats c).max := by
  have hmean := listMean_bounds (nonNullQ c) h
  have hmed := listMedian_bounds (nonNullQ c) h
  exact ⟨hmean.1, hmean.2, hmed.1, hmed.2⟩

/-- C4: every entry of `insights['summary_stats']` comes from a column of
numeric dtype, hence one typed `integer` or `number` by schema inference,
its value is that column's statistics, and for a column with at least one
non-null value those statistics satisfy `min ≤ mean ≤ max` and
`min ≤ median ≤ max`. -/
theorem c4_summary_statistics (df : DataFrame) :
    ∀ p ∈ (generate_insights df).summary_stats,
      ∃ c, (p.1, c) ∈ df.cols ∧ isNumeric c = true ∧
        (analyzeCol c = "integer" ∨ analyzeCol c = "number") ∧
        p.2 = colStats c ∧
        (nonNullQ c ≠ [] →
          p.2.min ≤ p.2.mean ∧ p.2.mean ≤ p.2.max ∧
          p.2.min ≤ p.2.median ∧ p.2.median ≤ p.2.max) := by
  intro p hp
  rw [generate_insights_summary] at hp
  obtain ⟨q, hq, rfl⟩ := List.mem_map.mp hp
  have hqc := List.mem_filter.mp hq
  exact ⟨q.2, hqc.1, hqc.2, analyzeCol_of_numeric hqc.2, rfl,
    fun hne => colStats_bounds hne⟩

theorem c4_witness :
    pC4w.2.min ≤ pC4w.2.mean ∧ pC4w.2.mean ≤ pC4w.2.max ∧
    pC4w.2.min ≤ pC4w.2.median ∧ pC4w.2.median ≤ pC4w.2.max := by
  have hpmem : pC4w ∈ (generate_insights dfC4w).summary_stats :=
    List.mem_singleton_self pC4w
  obtain ⟨c, hmem, hnum, hlab, heq, hb⟩ := c4_summary_statistics dfC4w pC4w hpmem
  have hc : c = colC4w := by simpa [dfC4w, pC4w] using hmem
  subst hc
  exact hb (by decide)

/-! ## C5: unsupported file types fail before the upload -/

/-- C5: when the lowercased file type is not `csv`, `xlsx`, `xls` or
`json`, `process_file` raises `ValueError` and the object store is
untouched: the returned store is exactly the one passed in, so the upload
step was never reached. -/
theorem c5_unsupported_file_type (fileType : String)
    (h : strLower fileType ∉ (["csv", "xlsx", "xls", "json"] : List String)) :
    ∀ (filePath : String) (userId : Int) (parsed : DataFrame)
      (now : Timestamp) (s3 : S3State),
      process_file filePath fileType userId parsed now s3 =
        (.error (.valueError ("Unsupported file type: " ++ fileType)), s3) := by
  intro filePath userId parsed now s3
  have h4 : strLower fileType ≠ "csv" ∧ strLower fileType ≠ "xlsx" ∧
      strLower fileType ≠ "xls" ∧ strLower fileType ≠ "json" := by
    simpa [not_or] using h
  simp [process_file, h4.1, h4.2.1, h4.2.2.1, h4.2.2.2]

theorem c5_witness :
    process_file "data/f.txt" "txt" 7 (⟨[]⟩ : DataFrame) tsW s3W =
      (.error (.valueError ("Unsupported file type: " ++ "txt")), s3W) :=
  c5_unsupported_file_type "txt" (by decide) "data/f.txt" 7 ⟨[]⟩ tsW s3W

/-! ## C6: the S3 key format -/

/-- C6: the key built by `_upload_to_s3` is
`business-<user_id>/<timestamp>_<basename>` with the timestamp formatted
`%Y%m%d_%H%M%S`, and in particular it begins with `business-<user_id>/`. -/
theorem c6_s3_key_format (filePath : String) (userId : Int) (now : Timestamp)
    (s3 : S3State) :
    (upload_to_s3 filePath userId now s3).1 =
      "business-" ++ toString userId ++ "/" ++ strftimeKey now ++ "_" ++
        basename filePath ∧
    ∃ rest, (upload_to_s3 filePath userId now s3).1 =
      "business-" ++ toString userId ++ "/" ++ rest := by
  refine ⟨rfl, strftimeKey now ++ "_" ++ basename filePath, ?_⟩
  show "business-" ++ toString userId ++ "/" ++ strftimeKey now ++ "_" ++
      basename filePath = _
  simp [String.append_assoc]

/-! ## C7: the date range entry -/

theorem filter_head?_eq_find? {α : Type} (p : α → Bool) :
    ∀ l : List α, (l.filter p).head? = l.find? p
  | [] => rfl
  | a :: l => by
    cases hpa : p a with
    | true => simp [List.filter, List.find?, hpa]
    | false => simp [List.filter, List.find?, hpa, filter_head?_eq_find? p l]

theorem generate_insights_date_range (df : DataFrame) :
    (generate_insights df).date_range =
      match df.cols.filter (fun p => isDatetimeCol p.2) with
      | [] => none
      | p :: _ =>
        match colDatetimeVals p.2 with
        | [] => none
        | v :: r =>
          some ⟨listMinD 0 (v :: r), listMaxD 0 (v :: r),
                (listMaxD 0 (v :: r) - listMinD 0 (v :: r)) / nsPerDay⟩ := rfl

/-- C7: when the dataframe has a datetime column, `insights['date_range']`
is derived from the first such column: its `start` is that column's
minimum non-null value, its `stop` (`'end'` in the source) the maximum,
and `days` the span divided into whole days; when no datetime column
exists the entry is absent. -/
theorem c7_date_range (df : DataFrame) :
    (∀ n c v vs, firstDatetimeCol df = some (n, c) →
      colDatetimeVals c = v :: vs →
      ∃ a b, a ∈ colDatetimeVals c ∧ b ∈ colDatetimeVals c ∧
        (∀ x ∈ colDatetimeVals c, a ≤ x ∧ x ≤ b) ∧
        (generate_insights df).date_range =
          some ⟨a, b, (b - a) / nsPerDay⟩) ∧
    (firstDatetimeCol df = none →
      (generate_insights df).date_range = none) := by
  have hfh := filter_head?_eq_find? (fun p => isDatetimeCol p.2) df.cols
  constructor
  · intro n c v vs hfind hvals
    have hhead : (df.cols.filter (fun p => isDatetimeCol p.2)).head? =
        some (n, c) := by rw [hfh]; exact hfind
    obtain ⟨rest, hrest⟩ :
        ∃ rest, df.cols.filter (fun p => isDatetimeCol p.2) = (n, c) :: rest := by
      cases hfl : df.cols.filter (fun p => isDatetimeCol p.2) with
      | nil => rw [hfl] at hhead; simp at hhead
      | cons q qs =>
        rw [hfl] at hhead
        simp only [List.head?_cons, Option.some.injEq] at hhead
        exact ⟨qs, by rw [hhead]⟩
    refine ⟨listMinD 0 (v :: vs), listMaxD 0 (v :: vs), ?_, ?_, ?_, ?_⟩
    · rw [hvals]; exact listMinD_mem 0 (by simp)
    · rw [hvals]; exact listMaxD_mem 0 (by simp)
    · intro x hx
      rw [hvals] at hx
      exact ⟨listMinD_le 0 hx, le_listMaxD 0 hx⟩
    · rw [generate_insights_date_range, hrest]
      dsimp only
      rw [hvals]
  · intro hnone
    have hhead : (df.cols.filter (fun p => isDatetimeCol p.2)).head? = none := by
      rw [hfh]; exact hnone
    rw [generate_insights_date_range]
    cases hfl : df.cols.filter (fun p => isDatetimeCol p.2) with
    | nil => rfl
    | cons q qs => rw [hfl] at hhead; simp at hhead

theorem c7_witness :
    (∃ a b, a ∈ colDatetimeVals colC7w ∧ b ∈ colDatetimeVals colC7w ∧
      (∀ x ∈ colDatetimeVals colC7w, a ≤ x ∧ x ≤ b) ∧
      (generate_insights dfC7w).date_range =
        some ⟨a, b, (b - a) / nsPerDay⟩) ∧
    (generate_insights dfC7n).date_range = none :=
  ⟨(c7_date_range dfC7w).1 "when" colC7w (2 * 86400000000000 + 5) [0] rfl rfl,
   (c7_date_range dfC7n).2 rfl⟩

/-! ## C9: date-named columns after `_clean_data` -/

theorem isBools_colFilterRows (k : Nat → Bool) (c : Col) :
    (colFilterRows k c).isBools = c.isBools := by
  cases c <;> rfl

theorem isBools_stripCol (c : Col) : (stripCol c).isBools = c.isBools := by
  cases c <;> rfl

theorem toDatetimeCoerce_not_bools {c : Col} (h : c.isBools = false) :
    ∃ d, toDatetimeCoerce c = some (Col.datetimes d) := by
  cases c with
  | ints d => exact ⟨d, rfl⟩
  | floats d => exact ⟨_, rfl⟩
  | datetimes d => exact ⟨d, rfl⟩
  | bools d => simp [Col.isBools] at h
  | objs d => exact ⟨_, rfl⟩

/-- C9 (amended): a column whose lowercased name contains one of the date
patterns and whose dtype is not boolean is converted to datetime by
`_clean_data` and classified `datetime` by the subsequent schema analysis.
A boolean-dtype column is excluded: `pd.to_datetime` raises on it, the
`except: pass` leaves the column unchanged, and it stays `boolean`. -/
theorem c9_date_named_column_datetime (df : DataFrame) (i : Nat) (n : String)
    (c : Col) (hcol : df.cols[i]? = some (n, c))
    (hname : date_patterns.any (fun pat => strContains (strLower n) pat) = true)
    (hnb : c.isBools = false) :
    (analyze_schema (clean_data df))[i]? = some (n, "datetime") := by
  have h1 : (dropAllNullRows df).cols[i]? =
      some (n, colFilterRows
        (fun j => df.cols.any (fun q => !(colNullAt q.2 j))) c) := by
    simp [dropAllNullRows, List.getElem?_map, hcol]
  have h2 : (stripCols (dropAllNullRows df)).cols[i]? =
      some (n, stripCol (colFilterRows
        (fun j => df.cols.any (fun q => !(colNullAt q.2 j))) c)) := by
    simp [stripCols, List.getElem?_map, h1]
  obtain ⟨d2, hd2⟩ := toDatetimeCoerce_not_bools
    (c := stripCol (colFilterRows
      (fun j => df.cols.any (fun q => !(colNullAt q.2 j))) c))
    (by rw [isBools_stripCol, isBools_colFilterRows]; exact hnb)
  have h3 : (clean_data df).cols[i]? = some (n, Col.datetimes d2) := by
    show (convertDateCols (stripCols (dropAllNullRows df))).cols[i]? = _
    simp only [convertDateCols, List.getElem?_map, h2, Option.map_some']
    rw [if_pos hname, hd2]
  simp only [analyze_schema, List.getElem?_map, h3, Option.map_some']
  rw [analyzeCol_datetimes]

theorem c9_witness :
    (analyze_schema (clean_data dfC9w))[0]? = some ("created_at", "datetime") :=
  c9_date_named_column_datetime dfC9w 0 "created_at"
    (Col.objs [some "2024-01-15", some "nope"]) rfl (by decide) rfl

/-- C9 counterexample: `login_time` matches the date patterns, yet the
boolean column is classified `boolean`, not `datetime`, after
`_clean_data` — the claim's "regardless of its contents" fails on boolean
dtype. -/
theorem c9_counterexample :
    date_patterns.any (fun pat => strContains (strLower "login_time") pat) = true ∧
    analyze_schema (clean_data dfC9cex) = [("login_time", "boolean")] ∧
    ("boolean" : String) ≠ "datetime" :=
  ⟨by decide, by decide, by decide⟩

/-! ## C1: the revenue pattern -/

theorem length_filterMap_map {α β : Type} (g : α → β) :
    ∀ d : List (Option α),
      (d.filterMap (fun o => o.map g)).length = (d.filterMap id).length
  | [] => rfl
  | o :: d => by cases o <;> simp [length_filterMap_map g d]

theorem colSumQ_numeric {c : Col} (h : isNumeric c = true) :
    colSumQ c = (nonNullQ c).sum := by
  cases c with
  | ints d => rfl
  | floats d => rfl
  | datetimes d => simp [isNumeric] at h
  | bools d => simp [isNumeric] at h
  | objs d => simp [isNumeric] at h

theorem colCount_numeric {c : Col} (h : isNumeric c = true) :
    colCount c = (nonNullQ c).length := by
  cases c with
  | ints d =>
    simp only [colCount, nonNullQ]
    exact (length_filterMap_map (fun z : Int => (z : ℚ)) d).symm
  | floats d => rfl
  | datetimes d => simp [isNumeric] at h
  | bools d => simp [isNumeric] at h
  | objs d => simp [isNumeric] at h

theorem generate_insights_patterns (df : DataFrame) :
    (generate_insights df).patterns =
      if (df.cols.map (fun p => strLower p.1)).contains "revenue" then
        match df.cols.find? (fun p => strContains (strLower p.1) "revenue") with
        | some p => [⟨"revenue_trend", colSumQ p.2, colMeanQ p.2⟩]
        | none => []
      else [] := rfl

/-- C1 (amended): when some column's lowercased name is exactly `revenue`
(the guard is `Index` membership, not a substring test), the insights
contain exactly one `revenue_trend` pattern whose `total` is the sum and
whose `average` the mean of the non-null values of the first column whose
name contains `revenue` case-insensitively, provided that column is
numeric. -/
theorem c1_revenue_pattern (df : DataFrame) (n : String) (c : Col)
    (hguard : (df.cols.map (fun p => strLower p.1)).contains "revenue" = true)
    (hsel : df.cols.find? (fun p => strContains (strLower p.1) "revenue") =
      some (n, c))
    (hnum : isNumeric c = true) :
    (generate_insights df).patterns =
      [⟨"revenue_trend", (nonNullQ c).sum,
        (nonNullQ c).sum / ((nonNullQ c).length : ℚ)⟩] := by
  rw [generate_insights_patterns, if_pos hguard, hsel]
  dsimp only
  simp only [colMeanQ, colSumQ_numeric hnum, colCount_numeric hnum]

theorem c1_witness :
    (generate_insights dfC1w).patterns =
      [⟨"revenue_trend", (nonNullQ colC1w).sum,
        (nonNullQ colC1w).sum / ((nonNullQ colC1w).length : ℚ)⟩] :=
  c1_revenue_pattern dfC1w "Revenue" colC1w (by decide) (by decide) (by decide)

/-- C1 counterexample: the column `total_revenue` contains the substring
`revenue`, so the claim demands a `revenue_trend` pattern entry, but the
source's guard tests exact membership of `revenue` in the lowercased
`Index`, which fails, and no pattern is produced. -/
theorem c1_counterexample :
    (dfC1cex.cols.any (fun p => strContains (strLower p.1) "revenue")) = true ∧
    (generate_insights dfC1cex).patterns = [] :=
  ⟨by decide, by decide⟩

end DataProcessor
